import Mathlib

/-!
# BQ40Z80 battery-gauge driver: formal model

Shallow embedding of the BQ40Z80 SMBus driver
(`src/app/Src/BQ40Z80/Src/bq40z80.cpp` and `bq40z80_lowlevel.cpp`).

The underlying I2C bus (`HAL_I2C_Master_Transmit` / `HAL_I2C_Master_Receive`)
is modeled as a state machine `Bus σ` supplied by the environment.  Every
driver operation is a pure function of the bus behaviour and its state; in
addition to the value it produces it returns the final bus state and a trace
of externally observable events (bus transactions and delays), so that claims
about "which transactions are issued" and "which delays are inserted" are
statable.

C out-parameters (`uint16_t&`, `std::vector<uint8_t>&`, ...) are modeled by
threading the parameter's incoming value through the function and returning
its final value: a function that does not touch the out-parameter returns the
incoming value unchanged.

Machine integers are `Nat` with explicit `% 256` / `% 65536` where the C code
truncates to `uint8_t` / `uint16_t`; signed reinterpretation
(`static_cast<int16_t>`) is the explicit function `toInt16`.
-/

namespace BQ40Z80

/-- `HAL_StatusTypeDef` from `hal_types.h`: HAL_OK, HAL_ERROR, HAL_BUSY,
HAL_TIMEOUT. -/
inductive HAL_Status where
  | ok
  | error
  | busy
  | timeout
deriving DecidableEq, Repr

/-- Externally observable actions of the driver: an I2C transmit of a byte
list to an 8-bit address, an I2C receive of `count` bytes from an address, a
blocking `HAL_Delay_MS` delay, and a FreeRTOS `vTaskDelay` delay (used by
`applyCommandDelay`). -/
inductive Event where
  | transmit (addr : Nat) (bytes : List Nat)
  | receive (addr : Nat) (count : Nat)
  | halDelay (ms : Nat)
  | taskDelay (ms : Nat)
deriving DecidableEq, Repr

/-- The environment's bus behaviour: a deterministic state machine answering
`HAL_I2C_Master_Transmit` and `HAL_I2C_Master_Receive` calls.  `transmit`
takes the device address and the bytes written and yields a status;
`receive` takes the device address and the requested byte count and yields a
status together with the bytes the hardware placed in the buffer. -/
structure Bus (σ : Type) where
  transmit : σ → Nat → List Nat → HAL_Status × σ
  receive : σ → Nat → Nat → (HAL_Status × List Nat) × σ

/-- Driver configuration (`struct Config`): 7-bit device address and
inter-command delay in ms. -/
structure Config where
  deviceAddress : Nat
  commandDelayMs : Nat
deriving DecidableEq, Repr

/-- `Driver::defaultConfig()`: address 0x0B, 1 ms command delay. -/
def defaultConfig : Config := ⟨0x0B, 1⟩

/-- `writeAddress_ = config.deviceAddress << 1` (truncated to `uint8_t`). -/
def writeAddress (cfg : Config) : Nat := (cfg.deviceAddress * 2) % 256

/-- `readAddress_ = (config.deviceAddress << 1) | 0x01` (truncated to
`uint8_t`). -/
def readAddress (cfg : Config) : Nat := ((cfg.deviceAddress * 2) % 256) ||| 1

/-- Result of an operation returning a 16-bit word through an out-parameter:
final status, final content of the out-parameter, final bus state, event
trace. -/
structure WordRes (σ : Type) where
  status : HAL_Status
  value : Nat
  state : σ
  trace : List Event

/-- Result of an operation returning a byte vector through an out-parameter. -/
structure BytesRes (σ : Type) where
  status : HAL_Status
  bytes : List Nat
  state : σ
  trace : List Event

/-- Result of an operation with no data output. -/
structure UnitRes (σ : Type) where
  status : HAL_Status
  state : σ
  trace : List Event

/-- A receive buffer of `n` bytes: the bytes the bus delivered, truncated to
the buffer size and padded with zeroes (the driver zero-initializes or the
HAL fills the whole buffer on success). -/
def fill (n : Nat) (bs : List Nat) : List Nat :=
  bs.take n ++ List.replicate (n - bs.length) 0

/-- `Driver::readWord` (bq40z80_lowlevel.cpp:24): transmit the 1-byte
command; on success wait 10 ms, receive 2 bytes, and combine them
little-endian into the out-parameter.  The out-parameter is written only
when both bus phases succeed. -/
def readWord (B : Bus σ) (cfg : Config) (cmd : Nat) (d0 : Nat) (s : σ) :
    WordRes σ :=
  let c := cmd % 256
  let t := B.transmit s (writeAddress cfg) [c]
  let tr1 := [Event.transmit (writeAddress cfg) [c]]
  if t.1 ≠ .ok then ⟨t.1, d0, t.2, tr1⟩
  else
    let tr2 := tr1 ++ [Event.halDelay 10]
    let r := B.receive t.2 (readAddress cfg) 2
    let tr3 := tr2 ++ [Event.receive (readAddress cfg) 2]
    if r.1.1 ≠ .ok then ⟨r.1.1, d0, r.2, tr3⟩
    else
      ⟨.ok, r.1.2.getD 0 0 % 256 + (r.1.2.getD 1 0 % 256) * 256, r.2, tr3⟩

/-- `Driver::writeWord` (bq40z80_lowlevel.cpp:71): one transmission of
`[cmd, low byte, high byte]`. -/
def writeWord (B : Bus σ) (cfg : Config) (cmd : Nat) (data : Nat) (s : σ) :
    UnitRes σ :=
  let d := data % 65536
  let buffer := [cmd % 256, d % 256, d / 256]
  let t := B.transmit s (writeAddress cfg) buffer
  ⟨t.1, t.2, [Event.transmit (writeAddress cfg) buffer]⟩

/-- `Driver::readBlock` (bq40z80_lowlevel.cpp:96): transmit the 1-byte
command; on success wait 10 ms and receive 33 bytes, where byte 0 is a
length prefix.  Length > 32 is a protocol error (HAL_ERROR); otherwise the
out-parameter is resized to the prefix and receives the payload bytes. -/
def readBlock (B : Bus σ) (cfg : Config) (cmd : Nat) (d0 : List Nat)
    (s : σ) : BytesRes σ :=
  let c := cmd % 256
  let t := B.transmit s (writeAddress cfg) [c]
  let tr1 := [Event.transmit (writeAddress cfg) [c]]
  if t.1 ≠ .ok then ⟨t.1, d0, t.2, tr1⟩
  else
    let tr2 := tr1 ++ [Event.halDelay 10]
    let r := B.receive t.2 (readAddress cfg) 33
    let tr3 := tr2 ++ [Event.receive (readAddress cfg) 33]
    if r.1.1 ≠ .ok then ⟨r.1.1, d0, r.2, tr3⟩
    else
      let buf := fill 33 (r.1.2.map (· % 256))
      let length := buf.getD 0 0
      if length > 32 then ⟨.error, d0, r.2, tr3⟩
      else ⟨.ok, (buf.drop 1).take length, r.2, tr3⟩

/-- `Driver::writeBlock` (bq40z80_lowlevel.cpp:145): more than 32 data bytes
is an error; otherwise one transmission of `[cmd, length, data...]`. -/
def writeBlock (B : Bus σ) (cfg : Config) (cmd : Nat) (data : List Nat)
    (s : σ) : UnitRes σ :=
  if data.length > 32 then ⟨.error, s, []⟩
  else
    let buffer := [cmd % 256, data.length % 256] ++ data.map (· % 256)
    let t := B.transmit s (writeAddress cfg) buffer
    ⟨t.1, t.2, [Event.transmit (writeAddress cfg) buffer]⟩

/-- `Driver::manufacturerCommand` (bq40z80_lowlevel.cpp:186): transmit
`[0x00, 0x00, command & 0xFF]` — the high data byte is hardcoded to 0x00
("always 0x00 for our commands") and only the command's low byte is sent. -/
def manufacturerCommand (B : Bus σ) (cfg : Config) (command : Nat) (s : σ) :
    UnitRes σ :=
  let c := command % 65536
  let buffer := [0x00, 0x00, c % 256]
  let t := B.transmit s (writeAddress cfg) buffer
  ⟨t.1, t.2, [Event.transmit (writeAddress cfg) buffer]⟩

/-- `Driver::manufacturerBlockWrite` (bq40z80_lowlevel.cpp:405): block-write
the MAC command little-endian to SMBus command 0x44. -/
def manufacturerBlockWrite (B : Bus σ) (cfg : Config) (mac_command : Nat)
    (s : σ) : UnitRes σ :=
  let c := mac_command % 65536
  writeBlock B cfg 0x44 [c % 256, c / 256] s

/-- `Driver::manufacturerBlockRead` (bq40z80_lowlevel.cpp:419): block-read
from 0x44; a successful read of fewer than 4 bytes is HAL_ERROR. -/
def manufacturerBlockRead (B : Bus σ) (cfg : Config) (d0 : List Nat)
    (s : σ) : BytesRes σ :=
  let r := readBlock B cfg 0x44 d0 s
  if r.status = .ok ∧ r.bytes.length ≥ 4 then
    ⟨.ok, r.bytes, r.state, r.trace⟩
  else if r.status = .ok then ⟨.error, r.bytes, r.state, r.trace⟩
  else ⟨r.status, r.bytes, r.state, r.trace⟩

/-- `Driver::manufacturerBlockAccessRead` (bq40z80_lowlevel.cpp:210): send
the command via 0x44, wait 100 ms, block-read the response from 0x44; on a
response of at least 4 bytes whose first two bytes echo the command, the
result is bytes 2-3 little-endian; an echo mismatch or a short/failed read
is HAL_ERROR and leaves the out-parameter unchanged. -/
def manufacturerBlockAccessRead (B : Bus σ) (cfg : Config) (command : Nat)
    (d0 : Nat) (s : σ) : WordRes σ :=
  let c := command % 65536
  let w := manufacturerBlockWrite B cfg c s
  if w.status ≠ .ok then ⟨w.status, d0, w.state, w.trace⟩
  else
    let tr := w.trace ++ [Event.halDelay 100]
    let r := manufacturerBlockRead B cfg [] w.state
    if r.status = .ok ∧ r.bytes.length ≥ 4 then
      let echo := r.bytes.getD 0 0 % 256 + (r.bytes.getD 1 0 % 256) * 256
      if echo = c then
        ⟨.ok, r.bytes.getD 2 0 % 256 + (r.bytes.getD 3 0 % 256) * 256,
          r.state, tr ++ r.trace⟩
      else ⟨.error, d0, r.state, tr ++ r.trace⟩
    else ⟨.error, d0, r.state, tr ++ r.trace⟩

/-- `enum class Reading` (bq40z80.h:71): SBS register commands for readable
quantities. -/
inductive Reading where
  | Voltage
  | Current
  | AverageCurrent
  | Temperature
  | StateOfCharge
  | AbsoluteStateOfCharge
  | RemainingCapacity
  | FullChargeCapacity
  | CycleCount
  | ManufacturerName
  | DeviceName
  | SerialNumber
  | BatteryStatus
  | AllBatteryData
deriving DecidableEq, Repr

/-- The `uint8_t` value of each `Reading` enumerator. -/
def Reading.code : Reading → Nat
  | .Voltage => 0x09
  | .Current => 0x0A
  | .AverageCurrent => 0x0B
  | .Temperature => 0x08
  | .StateOfCharge => 0x0D
  | .AbsoluteStateOfCharge => 0x0E
  | .RemainingCapacity => 0x0F
  | .FullChargeCapacity => 0x10
  | .CycleCount => 0x17
  | .ManufacturerName => 0x20
  | .DeviceName => 0x21
  | .SerialNumber => 0x1C
  | .BatteryStatus => 0x16
  | .AllBatteryData => 0xFF

/-- `enum class Setting` (bq40z80.h:99): writable register commands. -/
inductive Setting where
  | BatteryMode
  | ChargingCurrent
  | ChargingVoltage
deriving DecidableEq, Repr

/-- The `uint8_t` value of each `Setting` enumerator. -/
def Setting.code : Setting → Nat
  | .BatteryMode => 0x03
  | .ChargingCurrent => 0x14
  | .ChargingVoltage => 0x15

/-- `Driver::read(Reading, uint16_t&)` (bq40z80.cpp:132): try the direct SBS
`readWord`; on success with the sentinel 0x16CC, or on transport failure,
fall back to one `manufacturerBlockAccessRead` of the same register.  The
caller's out-parameter is threaded through both calls (in the sentinel case
`readWord` has already stored 0x16CC into it). -/
def read16 (B : Bus σ) (cfg : Config) (what : Reading) (d0 : Nat) (s : σ) :
    WordRes σ :=
  let r := readWord B cfg what.code d0 s
  if r.status = .ok then
    if r.value = 0x16CC then
      let f := manufacturerBlockAccessRead B cfg what.code r.value r.state
      ⟨f.status, f.value, f.state, r.trace ++ f.trace⟩
    else ⟨.ok, r.value, r.state, r.trace⟩
  else
    let f := manufacturerBlockAccessRead B cfg what.code r.value r.state
    ⟨f.status, f.value, f.state, r.trace ++ f.trace⟩

/-- `static_cast<int16_t>` of a `uint16_t`: two's-complement
reinterpretation. -/
def toInt16 (v : Nat) : Int :=
  if v % 65536 < 32768 then (v % 65536 : Int) else (v % 65536 : Int) - 65536

/-- Result of an operation returning a signed 16-bit value. -/
structure IntRes (σ : Type) where
  status : HAL_Status
  value : Int
  state : σ
  trace : List Event

/-- `Driver::read(Reading, int16_t&)` (bq40z80.cpp:159): the 16-bit read
into a fresh local, copied to the caller as `int16_t` only on success.  (The
local's uninitialized initial content never reaches the caller: it is copied
only when the read succeeded and overwrote it.) -/
def read16s (B : Bus σ) (cfg : Config) (what : Reading) (d0 : Int) (s : σ) :
    IntRes σ :=
  let r := read16 B cfg what 0 s
  if r.status = .ok then ⟨.ok, toInt16 r.value, r.state, r.trace⟩
  else ⟨r.status, d0, r.state, r.trace⟩

/-- `Driver::read(Reading, uint8_t&)` (bq40z80.cpp:174): the 16-bit read
into a fresh local, its low byte copied to the caller only on success. -/
def read8 (B : Bus σ) (cfg : Config) (what : Reading) (d0 : Nat) (s : σ) :
    WordRes σ :=
  let r := read16 B cfg what 0 s
  if r.status = .ok then ⟨.ok, r.value % 256, r.state, r.trace⟩
  else ⟨r.status, d0, r.state, r.trace⟩

/-- `struct Status` (bq40z80.h:169): decoded BatteryStatus flags. -/
structure Status where
  overChargedAlarm : Bool
  terminateChargeAlarm : Bool
  overTempAlarm : Bool
  terminateDischargeAlarm : Bool
  remainingCapacityAlarm : Bool
  remainingTimeAlarm : Bool
  initialized : Bool
  discharging : Bool
  fullyCharged : Bool
  fullyDischarged : Bool
  errorCode : Nat
deriving DecidableEq, Repr

/-- The bit masking of `Driver::read(Reading, Status&)` (bq40z80.cpp:235). -/
def decodeStatus (raw : Nat) : Status where
  overChargedAlarm := raw &&& 0x8000 ≠ 0
  terminateChargeAlarm := raw &&& 0x4000 ≠ 0
  overTempAlarm := raw &&& 0x1000 ≠ 0
  terminateDischargeAlarm := raw &&& 0x0800 ≠ 0
  remainingCapacityAlarm := raw &&& 0x0200 ≠ 0
  remainingTimeAlarm := raw &&& 0x0100 ≠ 0
  initialized := raw &&& 0x0080 ≠ 0
  discharging := raw &&& 0x0040 ≠ 0
  fullyCharged := raw &&& 0x0020 ≠ 0
  fullyDischarged := raw &&& 0x0010 ≠ 0
  errorCode := raw &&& 0x000F

/-- Result of the Status-decoding read. -/
structure StatusRes (σ : Type) where
  status : HAL_Status
  value : Status
  state : σ
  trace : List Event

/-- `Driver::read(Reading, Status&)` (bq40z80.cpp:218): only BatteryStatus
is accepted; direct `readWord` with a `manufacturerBlockAccessRead` fallback
taken only when the direct read succeeded and returned the sentinel (a
transport failure is NOT retried here); on success the raw word is decoded
into flags. -/
def readStatus (B : Bus σ) (cfg : Config) (what : Reading) (d0 : Status)
    (s : σ) : StatusRes σ :=
  if what ≠ Reading.BatteryStatus then ⟨.error, d0, s, []⟩
  else
    let r := readWord B cfg Reading.BatteryStatus.code 0 s
    let r2 : WordRes σ :=
      if r.status = .ok ∧ r.value = 0x16CC then
        let f := manufacturerBlockAccessRead B cfg
          Reading.BatteryStatus.code r.value r.state
        ⟨f.status, f.value, f.state, r.trace ++ f.trace⟩
      else r
    if r2.status = .ok then ⟨.ok, decodeStatus r2.value, r2.state, r2.trace⟩
    else ⟨r2.status, d0, r2.state, r2.trace⟩

/-- `struct BatteryData` (bq40z80.h:195). -/
structure BatteryData where
  voltage : Nat
  current : Int
  temperature : Nat
  stateOfCharge : Nat
  remainingCapacity : Nat
  fullChargeCapacity : Nat
  cycleCount : Nat
  status : Status
deriving DecidableEq, Repr

/-- Result of the composite snapshot read. -/
structure DataRes (σ : Type) where
  status : HAL_Status
  value : BatteryData
  state : σ
  trace : List Event

/-- `Driver::applyCommandDelay` (bq40z80_lowlevel.cpp:182):
`vTaskDelay(config_.commandDelayMs)`. -/
def applyCommandDelayEvent (cfg : Config) : Event :=
  Event.taskDelay cfg.commandDelayMs

/-- `Driver::read(Reading, BatteryData&)` (bq40z80.cpp:256): read the seven
scalar fields and the status in a fixed order with `applyCommandDelay`
between them; any failure before CycleCount, and a BatteryStatus failure,
abort with that status; a CycleCount failure stores 0 and continues. -/
def readBatteryData (B : Bus σ) (cfg : Config) (what : Reading)
    (b0 : BatteryData) (s : σ) : DataRes σ :=
  if what ≠ Reading.AllBatteryData then ⟨.error, b0, s, []⟩
  else
    let r1 := read16 B cfg .Voltage b0.voltage s
    let b1 := { b0 with voltage := r1.value }
    if r1.status ≠ .ok then ⟨r1.status, b1, r1.state, r1.trace⟩ else
    let t1 := r1.trace ++ [applyCommandDelayEvent cfg]
    let r2 := read16s B cfg .Current b0.current r1.state
    let b2 := { b1 with current := r2.value }
    if r2.status ≠ .ok then ⟨r2.status, b2, r2.state, t1 ++ r2.trace⟩ else
    let t2 := t1 ++ r2.trace ++ [applyCommandDelayEvent cfg]
    let r3 := read16 B cfg .Temperature b0.temperature r2.state
    let b3 := { b2 with temperature := r3.value }
    if r3.status ≠ .ok then ⟨r3.status, b3, r3.state, t2 ++ r3.trace⟩ else
    let t3 := t2 ++ r3.trace ++ [applyCommandDelayEvent cfg]
    let r4 := read8 B cfg .StateOfCharge b0.stateOfCharge r3.state
    let b4 := { b3 with stateOfCharge := r4.value }
    if r4.status ≠ .ok then ⟨r4.status, b4, r4.state, t3 ++ r4.trace⟩ else
    let t4 := t3 ++ r4.trace ++ [applyCommandDelayEvent cfg]
    let r5 := read16 B cfg .RemainingCapacity b0.remainingCapacity r4.state
    let b5 := { b4 with remainingCapacity := r5.value }
    if r5.status ≠ .ok then ⟨r5.status, b5, r5.state, t4 ++ r5.trace⟩ else
    let t5 := t4 ++ r5.trace ++ [applyCommandDelayEvent cfg]
    let r6 := read16 B cfg .FullChargeCapacity b0.fullChargeCapacity r5.state
    let b6 := { b5 with fullChargeCapacity := r6.value }
    if r6.status ≠ .ok then ⟨r6.status, b6, r6.state, t5 ++ r6.trace⟩ else
    let t6 := t5 ++ r6.trace ++ [applyCommandDelayEvent cfg]
    let r7 := read16 B cfg .CycleCount b0.cycleCount r6.state
    let b7 := { b6 with cycleCount := if r7.status ≠ .ok then 0 else r7.value }
    let t7 := t6 ++ r7.trace ++ [applyCommandDelayEvent cfg]
    let r8 := readStatus B cfg .BatteryStatus b0.status r7.state
    let b8 := { b7 with status := r8.value }
    if r8.status ≠ .ok then
      ⟨r8.status, { b7 with status := b0.status }, r8.state, t7 ++ r8.trace⟩
    else ⟨.ok, b8, r8.state, t7 ++ r8.trace⟩

/-- `Driver::write(Setting, uint16_t)` (bq40z80.cpp:306): a single direct
`writeWord` to the setting's register code. -/
def write (B : Bus σ) (cfg : Config) (what : Setting) (value : Nat)
    (s : σ) : UnitRes σ :=
  writeWord B cfg what.code value s

/-- `Driver::init` (bq40z80.cpp:80): probe BatteryMode (0x03).  On 0x6081,
done.  On the 0x16CC sentinel, run the recovery sequence — MAC device reset
0x0041, wait 500 ms, unseal key 0x0414, wait 10 ms, unseal key 0x3672, wait
100 ms, re-probe BatteryMode — after which HAL_OK is returned whether or not
the re-probe shows recovery.  Every path, including probe transport failure,
returns HAL_OK. -/
def init (B : Bus σ) (cfg : Config) (s : σ) : UnitRes σ :=
  let r := readWord B cfg 0x03 0 s
  if r.status = .ok then
    if r.value = 0x6081 then ⟨.ok, r.state, r.trace⟩
    else if r.value = 0x16CC then
      let m1 := manufacturerCommand B cfg 0x0041 r.state
      let t1 := r.trace ++ m1.trace ++ [Event.halDelay 500]
      let m2 := manufacturerCommand B cfg 0x0414 m1.state
      let t2 := t1 ++ m2.trace ++ [Event.halDelay 10]
      let m3 := manufacturerCommand B cfg 0x3672 m2.state
      let t3 := t2 ++ m3.trace ++ [Event.halDelay 100]
      let r2 := readWord B cfg 0x03 0 m3.state
      -- the re-probe outcome affects only logging; HAL_OK either way
      ⟨.ok, r2.state, t3 ++ r2.trace⟩
    else ⟨.ok, r.state, r.trace⟩
  else ⟨.ok, r.state, r.trace⟩

/-- Is an event a delay (either `HAL_Delay_MS` or `vTaskDelay`)? -/
def isDelay : Event → Bool
  | .halDelay _ => true
  | .taskDelay _ => true
  | _ => false

/-- The delay events of a trace. -/
def delays (tr : List Event) : List Event := tr.filter isDelay

/-- Does an event start a ManufacturerBlockAccess transaction?  A fallback
transaction begins with the block write of `manufacturerBlockWrite`, a
4-byte frame `[0x44, 2, low, high]`; no other transmission of the driver is
a 4-byte frame starting with 0x44 (the block-read command phase transmits
the single byte `[0x44]`). -/
def isFallbackStart : Event → Bool
  | .transmit _ bytes => bytes.length == 4 && bytes.headD 0 == 0x44
  | _ => false

/-- Number of ManufacturerBlockAccess transactions a trace starts. -/
def fallbackCount (tr : List Event) : Nat :=
  (tr.filter isFallbackStart).length

/-- Mock bus: every transmit succeeds, every receive succeeds and delivers
`resp`. -/
def okBus (resp : List Nat) : Bus Unit where
  transmit := fun s _ _ => (.ok, s)
  receive := fun s _ _ => ((.ok, resp), s)

/-- Mock bus for a frozen device: all transmissions succeed and every
register read delivers the sentinel bytes `CC 16` (0x16CC little-endian). -/
def frozenBus : Bus Unit := okBus [0xCC, 0x16]

/-- Mock bus for a sealed device whose ManufacturerBlockAccess path is also
broken: register reads deliver the sentinel, and any transmission to SMBus
command 0x44 is rejected. -/
def sealedDeadBus : Bus Unit where
  transmit := fun s _ bs => (if bs.headD 0 = 0x44 then .error else .ok, s)
  receive := fun s _ _ => ((.ok, [0xCC, 0x16]), s)

/-- Mock bus on which only the CycleCount register (0x17) and the
ManufacturerBlockAccess path fail; every other read delivers `10 27`
(0x2710 little-endian). -/
def cycleFailBus : Bus Unit where
  transmit := fun s _ bs =>
    (if bs = [0x17] ∨ bs.headD 0 = 0x44 then .error else .ok, s)
  receive := fun s _ _ => ((.ok, [0x10, 0x27]), s)

/-- An all-clear decoded status value (raw word 0). -/
def zeroStatus : Status := decodeStatus 0

/-- An all-zero battery snapshot, used as the caller's initial struct in
concrete runs. -/
def zeroData : BatteryData := ⟨0, 0, 0, 0, 0, 0, 0, zeroStatus⟩

/-- Field 1 of the composite snapshot read: Voltage. -/
def bd1 (B : Bus σ) (cfg : Config) (b0 : BatteryData) (s : σ) : WordRes σ :=
  read16 B cfg .Voltage b0.voltage s

/-- Field 2 of the composite snapshot read: Current (signed), from the bus
state `bd1` left. -/
def bd2 (B : Bus σ) (cfg : Config) (b0 : BatteryData) (s : σ) : IntRes σ :=
  read16s B cfg .Current b0.current (bd1 B cfg b0 s).state

/-- Field 3 of the composite snapshot read: Temperature. -/
def bd3 (B : Bus σ) (cfg : Config) (b0 : BatteryData) (s : σ) : WordRes σ :=
  read16 B cfg .Temperature b0.temperature (bd2 B cfg b0 s).state

/-- Field 4 of the composite snapshot read: StateOfCharge (8-bit). -/
def bd4 (B : Bus σ) (cfg : Config) (b0 : BatteryData) (s : σ) : WordRes σ :=
  read8 B cfg .StateOfCharge b0.stateOfCharge (bd3 B cfg b0 s).state

/-- Field 5 of the composite snapshot read: RemainingCapacity. -/
def bd5 (B : Bus σ) (cfg : Config) (b0 : BatteryData) (s : σ) : WordRes σ :=
  read16 B cfg .RemainingCapacity b0.remainingCapacity (bd4 B cfg b0 s).state

/-- Field 6 of the composite snapshot read: FullChargeCapacity. -/
def bd6 (B : Bus σ) (cfg : Config) (b0 : BatteryData) (s : σ) : WordRes σ :=
  read16 B cfg .FullChargeCapacity b0.fullChargeCapacity
    (bd5 B cfg b0 s).state

/-- Field 7 of the composite snapshot read: CycleCount (best-effort). -/
def bd7 (B : Bus σ) (cfg : Config) (b0 : BatteryData) (s : σ) : WordRes σ :=
  read16 B cfg .CycleCount b0.cycleCount (bd6 B cfg b0 s).state

/-- Field 8 of the composite snapshot read: BatteryStatus, read from the
state `bd7` left whether or not the CycleCount read succeeded. -/
def bd8 (B : Bus σ) (cfg : Config) (b0 : BatteryData) (s : σ) :
    StatusRes σ :=
  readStatus B cfg .BatteryStatus b0.status (bd7 B cfg b0 s).state

/-! ## Helper lemmas -/

/-- Fallback transactions in a concatenated trace. -/
theorem fallbackCount_append (t1 t2 : List Event) :
    fallbackCount (t1 ++ t2) = fallbackCount t1 + fallbackCount t2 := by
  simp [fallbackCount, List.filter_append]

/-- A direct `readWord` starts no ManufacturerBlockAccess transaction: its
only transmission is the 1-byte register command. -/
theorem fallbackCount_readWord {σ : Type} (B : Bus σ) (cfg : Config)
    (cmd d0 : Nat) (s : σ) :
    fallbackCount (readWord B cfg cmd d0 s).trace = 0 := by
  simp only [readWord]
  split
  · rfl
  · split <;> rfl

/-- The block write of a ManufacturerBlockAccess command is one 4-byte
frame `[0x44, 2, low, high]`. -/
theorem mbw_trace {σ : Type} (B : Bus σ) (cfg : Config) (c : Nat) (s : σ) :
    (manufacturerBlockWrite B cfg c s).trace =
      [Event.transmit (writeAddress cfg)
        [0x44, 2, c % 65536 % 256, c % 65536 / 256 % 256]] := by
  simp [manufacturerBlockWrite, writeBlock]

/-- A `manufacturerBlockWrite` starts exactly one ManufacturerBlockAccess
transaction. -/
theorem fallbackCount_mbw {σ : Type} (B : Bus σ) (cfg : Config)
    (c : Nat) (s : σ) :
    fallbackCount (manufacturerBlockWrite B cfg c s).trace = 1 := by
  rw [mbw_trace]
  rfl

/-- A `readBlock` starts no ManufacturerBlockAccess transaction: its only
transmission is the 1-byte command. -/
theorem fallbackCount_readBlock {σ : Type} (B : Bus σ) (cfg : Config)
    (cmd : Nat) (d0 : List Nat) (s : σ) :
    fallbackCount (readBlock B cfg cmd d0 s).trace = 0 := by
  simp only [readBlock]
  split
  · rfl
  · split
    · rfl
    · split <;> rfl

/-- `manufacturerBlockRead` adds nothing to the trace of its inner
`readBlock`. -/
theorem mbr_trace {σ : Type} (B : Bus σ) (cfg : Config) (d0 : List Nat)
    (s : σ) :
    (manufacturerBlockRead B cfg d0 s).trace =
      (readBlock B cfg 0x44 d0 s).trace := by
  simp only [manufacturerBlockRead]
  split
  · rfl
  · split <;> rfl

/-- A `manufacturerBlockAccessRead` starts exactly one
ManufacturerBlockAccess transaction, whatever the bus does. -/
theorem fallbackCount_mba {σ : Type} (B : Bus σ) (cfg : Config)
    (c d0 : Nat) (s : σ) :
    fallbackCount (manufacturerBlockAccessRead B cfg c d0 s).trace = 1 := by
  simp only [manufacturerBlockAccessRead]
  split
  · exact fallbackCount_mbw B cfg (c % 65536) s
  · split
    · split
      all_goals
        rw [fallbackCount_append, fallbackCount_append, fallbackCount_mbw,
          mbr_trace, fallbackCount_readBlock]
      all_goals decide
    · rw [fallbackCount_append, fallbackCount_append, fallbackCount_mbw,
        mbr_trace, fallbackCount_readBlock]
      decide

/-- A failed `readWord` leaves the out-parameter unchanged. -/
theorem readWord_fail_value {σ : Type} (B : Bus σ) (cfg : Config)
    (cmd d0 : Nat) (s : σ) (h : (readWord B cfg cmd d0 s).status ≠ .ok) :
    (readWord B cfg cmd d0 s).value = d0 := by
  simp only [readWord] at h ⊢
  by_cases h1 : (B.transmit s (writeAddress cfg) [cmd % 256]).1 ≠ .ok
  · rw [if_pos h1]
  · rw [if_neg h1] at h ⊢
    by_cases h2 : (B.receive (B.transmit s (writeAddress cfg)
        [cmd % 256]).2 (readAddress cfg) 2).1.1 ≠ .ok
    · rw [if_pos h2]
    · rw [if_neg h2] at h
      simp at h

/-- A failed `manufacturerBlockAccessRead` leaves the out-parameter
unchanged. -/
theorem mba_fail_value {σ : Type} (B : Bus σ) (cfg : Config)
    (c d0 : Nat) (s : σ)
    (h : (manufacturerBlockAccessRead B cfg c d0 s).status ≠ .ok) :
    (manufacturerBlockAccessRead B cfg c d0 s).value = d0 := by
  simp only [manufacturerBlockAccessRead] at h ⊢
  set w := manufacturerBlockWrite B cfg (c % 65536) s with hw
  set r := manufacturerBlockRead B cfg [] w.state with hr
  by_cases h1 : w.status ≠ .ok
  · rw [if_pos h1]
  · rw [if_neg h1] at h ⊢
    by_cases h2 : r.status = .ok ∧ r.bytes.length ≥ 4
    · rw [if_pos h2] at h ⊢
      by_cases h3 : r.bytes.getD 0 0 % 256 + r.bytes.getD 1 0 % 256 * 256 =
          c % 65536
      · rw [if_pos h3] at h
        simp at h
      · rw [if_neg h3]
    · rw [if_neg h2]

/-! ## Claims -/

/-- C4: `init()` never returns a failure status — every behaviour of the
underlying transport (normal probe value, sentinel with successful or failed
recovery, probe transport failure) yields HAL_OK. -/
theorem init_always_ok {σ : Type} (B : Bus σ) (cfg : Config) (s : σ) :
    (init B cfg s).status = .ok := by
  simp only [init]
  split
  · split
    · rfl
    · split <;> rfl
  · rfl

/-- C7: for every Setting and every 16-bit value, `write(setting, value)`
is a single direct `writeWord` transmitting `[register command, low byte,
high byte]` (little-endian), with no further transaction, no verification
and no bounds check; in particular `write(ChargingCurrent, 2000)` transmits
`[0x14, 0xD0, 0x07]`. -/
theorem write_single_writeWord {σ : Type} (B : Bus σ) (cfg : Config)
    (what : Setting) (v : Nat) (s : σ) :
    write B cfg what v s =
      ⟨(B.transmit s (writeAddress cfg)
          [what.code, v % 65536 % 256, v % 65536 / 256]).1,
        (B.transmit s (writeAddress cfg)
          [what.code, v % 65536 % 256, v % 65536 / 256]).2,
        [Event.transmit (writeAddress cfg)
          [what.code, v % 65536 % 256, v % 65536 / 256]]⟩
    ∧ (write B cfg .ChargingCurrent 2000 s).trace =
        [Event.transmit (writeAddress cfg) [0x14, 0xD0, 0x07]] := by
  constructor
  · cases what <;> rfl
  · rfl

/-- C6 counterexample: `writeWord` and `writeBlock` insert no delay at all
before returning — refuting, at a concrete input, the claim that every
transport primitive inserts the configured inter-command delay before
returning control. -/
theorem transport_no_delay_ctrex :
    delays (writeWord (okBus []) defaultConfig 0x14 2000 ()).trace = []
    ∧ delays (writeBlock (okBus []) defaultConfig 0x44 [0x17, 0x00]
        ()).trace = [] := by
  constructor <;> rfl

/-- C6 amended: none of the four transport primitives applies the
configured inter-command delay (`applyCommandDelay` / `vTaskDelay`);
`writeWord` and `writeBlock` insert no delay whatsoever, while `readWord`
and `readBlock` insert only a fixed 10 ms `HAL_Delay_MS` between the
command write and the data read (absent when the command write fails). -/
theorem transport_delay_amended {σ : Type} (B : Bus σ) (cfg : Config)
    (cmd v d0 : Nat) (bs d0b : List Nat) (s : σ) :
    delays (writeWord B cfg cmd v s).trace = []
    ∧ delays (writeBlock B cfg cmd bs s).trace = []
    ∧ (delays (readWord B cfg cmd d0 s).trace = [] ∨
       delays (readWord B cfg cmd d0 s).trace = [Event.halDelay 10])
    ∧ (delays (readBlock B cfg cmd d0b s).trace = [] ∨
       delays (readBlock B cfg cmd d0b s).trace = [Event.halDelay 10]) := by
  refine ⟨rfl, ?_, ?_, ?_⟩
  · simp only [writeBlock]
    split <;> rfl
  · simp only [readWord]
    split
    · left
      rfl
    · split
      · right
        rfl
      · right
        rfl
  · simp only [readBlock]
    split
    · left
      rfl
    · split
      · right
        rfl
      · split
        · right
          rfl
        · right
          rfl

/-- C3: on a frozen device (BatteryMode probe returns the 0x16CC sentinel)
`init()` issues exactly three ManufacturerAccess recovery commands in order
(reset, key 1, key 2) followed by a re-probe, and on a healthy device
(probe 0x6081) it issues none — but the commands are NOT sent bit-exact:
`manufacturerCommand` hardcodes the data high byte to 0x00, so the unseal
keys 0x0414 and 0x3672 go out as the frames `[0x00, 0x00, 0x14]` and
`[0x00, 0x00, 0x72]` (i.e. 0x0014 and 0x0072); the keys' high bytes 0x04
and 0x36 never appear on the wire. -/
theorem init_recovery_trace :
    (init frozenBus defaultConfig ()).trace =
      [Event.transmit (writeAddress defaultConfig) [0x03],
       Event.halDelay 10,
       Event.receive (readAddress defaultConfig) 2,
       Event.transmit (writeAddress defaultConfig) [0x00, 0x00, 0x41],
       Event.halDelay 500,
       Event.transmit (writeAddress defaultConfig) [0x00, 0x00, 0x14],
       Event.halDelay 10,
       Event.transmit (writeAddress defaultConfig) [0x00, 0x00, 0x72],
       Event.halDelay 100,
       Event.transmit (writeAddress defaultConfig) [0x03],
       Event.halDelay 10,
       Event.receive (readAddress defaultConfig) 2]
    ∧ ((init frozenBus defaultConfig ()).trace.all fun e =>
        match e with
        | .transmit _ bytes => !(bytes.contains 0x04 || bytes.contains 0x36)
        | _ => true) = true
    ∧ (init (okBus [0x81, 0x60]) defaultConfig ()).trace =
      [Event.transmit (writeAddress defaultConfig) [0x03],
       Event.halDelay 10,
       Event.receive (readAddress defaultConfig) 2] := by
  refine ⟨rfl, rfl, rfl⟩

/-- C10 counterexample: on a sealed device whose fallback path fails, the
uint16_t read overload returns a failure status yet has overwritten the
caller's out-parameter (initially 5) with the sentinel 0x16CC. -/
theorem read16_out_param_ctrex :
    (read16 sealedDeadBus defaultConfig .Voltage 5 ()).status = .error
    ∧ (read16 sealedDeadBus defaultConfig .Voltage 5 ()).value = 0x16CC := by
  constructor <;> rfl

/-- C10 amended: on failure the int16_t and uint8_t read overloads leave
the caller's out-parameter unchanged; the uint16_t overload leaves it
either unchanged or — when the direct read returned the sentinel and the
fallback then failed — overwritten with the sentinel 0x16CC. -/
theorem out_param_on_failure {σ : Type} (B : Bus σ) (cfg : Config)
    (what : Reading) (dI : Int) (dN dU : Nat) (s : σ) :
    ((read16s B cfg what dI s).status ≠ .ok →
      (read16s B cfg what dI s).value = dI)
    ∧ ((read8 B cfg what dN s).status ≠ .ok →
      (read8 B cfg what dN s).value = dN)
    ∧ ((read16 B cfg what dU s).status ≠ .ok →
      (read16 B cfg what dU s).value = dU ∨
        (read16 B cfg what dU s).value = 0x16CC) := by
  refine ⟨?_, ?_, ?_⟩
  · intro h
    by_cases hs : (read16 B cfg what 0 s).status = .ok
    · exact absurd (by simp [read16s, hs]) h
    · simp [read16s, hs]
  · intro h
    by_cases hs : (read16 B cfg what 0 s).status = .ok
    · exact absurd (by simp [read8, hs]) h
    · simp [read8, hs]
  · intro h
    simp only [read16] at h ⊢
    by_cases h1 : (readWord B cfg what.code dU s).status = .ok
    · by_cases h2 : (readWord B cfg what.code dU s).value = 0x16CC
      · rw [if_pos h1, if_pos h2] at h ⊢
        dsimp only at h ⊢
        right
        exact (mba_fail_value B cfg what.code
          (readWord B cfg what.code dU s).value
          (readWord B cfg what.code dU s).state h).trans h2
      · rw [if_pos h1, if_neg h2] at h
        simp at h
    · rw [if_neg h1] at h ⊢
      dsimp only at h ⊢
      left
      rw [mba_fail_value B cfg what.code
        (readWord B cfg what.code dU s).value
        (readWord B cfg what.code dU s).state h]
      exact readWord_fail_value B cfg what.code dU s h1

/-- C10 amended, witness: on the sealed-dead bus the signed read fails and
its out-parameter (initially 7) is returned unchanged. -/
theorem out_param_on_failure_witness :
    (read16s sealedDeadBus defaultConfig .Voltage 7 ()).status ≠ .ok
    ∧ (read16s sealedDeadBus defaultConfig .Voltage 7 ()).value = 7 := by
  refine ⟨by decide, ?_⟩
  exact (out_param_on_failure sealedDeadBus defaultConfig .Voltage 7 0 0
    ()).1 (by decide)

/-- C1: the fallback-aware 16-bit typed read.  If the direct `readWord`
succeeds with a non-sentinel value, that value is returned with HAL_OK and
no ManufacturerBlockAccess transaction is started; otherwise (sentinel
0x16CC or transport failure) exactly one ManufacturerBlockAccess fallback
for the same register is performed and its result — value and status —
is returned as is. -/
theorem read16_fallback_chain {σ : Type} (B : Bus σ) (cfg : Config)
    (what : Reading) (d0 : Nat) (s : σ) :
    ((readWord B cfg what.code d0 s).status = .ok →
     (readWord B cfg what.code d0 s).value ≠ 0x16CC →
      read16 B cfg what d0 s =
        ⟨.ok, (readWord B cfg what.code d0 s).value,
          (readWord B cfg what.code d0 s).state,
          (readWord B cfg what.code d0 s).trace⟩
      ∧ fallbackCount (read16 B cfg what d0 s).trace = 0)
    ∧ (¬((readWord B cfg what.code d0 s).status = .ok ∧
          (readWord B cfg what.code d0 s).value ≠ 0x16CC) →
      read16 B cfg what d0 s =
        ⟨(manufacturerBlockAccessRead B cfg what.code
            (readWord B cfg what.code d0 s).value
            (readWord B cfg what.code d0 s).state).status,
          (manufacturerBlockAccessRead B cfg what.code
            (readWord B cfg what.code d0 s).value
            (readWord B cfg what.code d0 s).state).value,
          (manufacturerBlockAccessRead B cfg what.code
            (readWord B cfg what.code d0 s).value
            (readWord B cfg what.code d0 s).state).state,
          (readWord B cfg what.code d0 s).trace ++
            (manufacturerBlockAccessRead B cfg what.code
              (readWord B cfg what.code d0 s).value
              (readWord B cfg what.code d0 s).state).trace⟩
      ∧ fallbackCount (read16 B cfg what d0 s).trace = 1) := by
  constructor
  · intro h1 h2
    have he : read16 B cfg what d0 s =
        ⟨.ok, (readWord B cfg what.code d0 s).value,
          (readWord B cfg what.code d0 s).state,
          (readWord B cfg what.code d0 s).trace⟩ := by
      simp only [read16]
      rw [if_pos h1, if_neg h2]
    refine ⟨he, ?_⟩
    rw [he]
    exact fallbackCount_readWord B cfg what.code d0 s
  · intro h
    have he : read16 B cfg what d0 s =
        ⟨(manufacturerBlockAccessRead B cfg what.code
            (readWord B cfg what.code d0 s).value
            (readWord B cfg what.code d0 s).state).status,
          (manufacturerBlockAccessRead B cfg what.code
            (readWord B cfg what.code d0 s).value
            (readWord B cfg what.code d0 s).state).value,
          (manufacturerBlockAccessRead B cfg what.code
            (readWord B cfg what.code d0 s).value
            (readWord B cfg what.code d0 s).state).state,
          (readWord B cfg what.code d0 s).trace ++
            (manufacturerBlockAccessRead B cfg what.code
              (readWord B cfg what.code d0 s).value
              (readWord B cfg what.code d0 s).state).trace⟩ := by
      simp only [read16]
      by_cases h1 : (readWord B cfg what.code d0 s).status = .ok
      · have h2 : (readWord B cfg what.code d0 s).value = 0x16CC := by
          by_contra hx
          exact h ⟨h1, hx⟩
        rw [if_pos h1, if_pos h2]
      · rw [if_neg h1]
    refine ⟨he, ?_⟩
    rw [he]
    show fallbackCount ((readWord B cfg what.code d0 s).trace ++
      (manufacturerBlockAccessRead B cfg what.code
        (readWord B cfg what.code d0 s).value
        (readWord B cfg what.code d0 s).state).trace) = 1
    rw [fallbackCount_append, fallbackCount_readWord, fallbackCount_mba]

/-- C1 witness: a healthy bus answering `10 27` gives a direct voltage read
of 0x2710 with no fallback transaction. -/
theorem read16_fallback_chain_witness :
    (read16 (okBus [0x10, 0x27]) defaultConfig .Voltage 0 ()).status = .ok
    ∧ (read16 (okBus [0x10, 0x27]) defaultConfig .Voltage 0 ()).value =
        0x2710
    ∧ fallbackCount
        (read16 (okBus [0x10, 0x27]) defaultConfig .Voltage 0 ()).trace =
        0 := by
  have h := (read16_fallback_chain (okBus [0x10, 0x27]) defaultConfig
    .Voltage 0 ()).1 (by decide) (by decide)
  refine ⟨?_, ?_, h.2⟩
  · rw [h.1]
  · rw [h.1]
    decide

/-- C9: the signed 16-bit and 8-bit reads are pure views over the
fallback-aware 16-bit read: same status, same bus state, same event trace
(no additional bus transaction); on success the signed read returns the
two's-complement reinterpretation of the 16-bit value and the 8-bit read
its low byte, and on failure both leave the out-parameter unchanged. -/
theorem narrow_reads_refine {σ : Type} (B : Bus σ) (cfg : Config)
    (what : Reading) (dI : Int) (dN : Nat) (s : σ) :
    ((read16s B cfg what dI s).status = (read16 B cfg what 0 s).status
     ∧ (read16s B cfg what dI s).state = (read16 B cfg what 0 s).state
     ∧ (read16s B cfg what dI s).trace = (read16 B cfg what 0 s).trace
     ∧ (read16s B cfg what dI s).value =
         (if (read16 B cfg what 0 s).status = .ok
          then toInt16 (read16 B cfg what 0 s).value else dI))
    ∧ ((read8 B cfg what dN s).status = (read16 B cfg what 0 s).status
     ∧ (read8 B cfg what dN s).state = (read16 B cfg what 0 s).state
     ∧ (read8 B cfg what dN s).trace = (read16 B cfg what 0 s).trace
     ∧ (read8 B cfg what dN s).value =
         (if (read16 B cfg what 0 s).status = .ok
          then (read16 B cfg what 0 s).value % 256 else dN)) := by
  by_cases h : (read16 B cfg what 0 s).status = .ok <;>
    simp [read16s, read8, h]

/-- The low-byte view commutes with `List.getD`: indexing a `% 256`-mapped
list is indexing then reducing. -/
theorem getD_map_mod (bs : List Nat) (j : Nat) :
    (bs.map (· % 256)).getD j 0 = bs.getD j 0 % 256 := by
  simp only [List.getD_eq_getElem?_getD, List.getElem?_map]
  cases bs[j]? <;> simp

/-- Indexing the `take len` of a 1-dropped list below `len` is indexing the
original list shifted by one. -/
theorem getD_take_drop (m : List Nat) (len i : Nat) (hi : i < len) :
    ((m.drop 1).take len).getD i 0 = m.getD (1 + i) 0 := by
  simp [List.getD_eq_getElem?_getD, List.getElem?_take, hi,
    List.getElem?_drop, Nat.add_comm]

/-- A full 33-byte receive buffer needs no padding. -/
theorem fill_full (bs : List Nat) (hlen : bs.length = 33) :
    fill 33 (bs.map (· % 256)) = bs.map (· % 256) := by
  have hm : (bs.map fun x => x % 256).length = 33 := by simp [hlen]
  unfold fill
  rw [← hm, List.take_length]
  simp

/-- C8: on a successful 33-byte bus read, `readBlock` fails with a protocol
error (HAL_ERROR) when the length-prefix byte exceeds 32 and leaves the
out-parameter unchanged; otherwise it succeeds and returns exactly the
first length-prefix payload bytes, trimmed to that length. -/
theorem readBlock_length_check {σ : Type} (B : Bus σ) (cfg : Config)
    (cmd : Nat) (d0 bs : List Nat) (s : σ)
    (h1 : (B.transmit s (writeAddress cfg) [cmd % 256]).1 = .ok)
    (h2 : (B.receive (B.transmit s (writeAddress cfg) [cmd % 256]).2
        (readAddress cfg) 33).1.1 = .ok)
    (hb : (B.receive (B.transmit s (writeAddress cfg) [cmd % 256]).2
        (readAddress cfg) 33).1.2 = bs)
    (hlen : bs.length = 33) :
    (32 < bs.getD 0 0 % 256 →
      (readBlock B cfg cmd d0 s).status = .error ∧
      (readBlock B cfg cmd d0 s).bytes = d0)
    ∧ (bs.getD 0 0 % 256 ≤ 32 →
      (readBlock B cfg cmd d0 s).status = .ok ∧
      (readBlock B cfg cmd d0 s).bytes.length = bs.getD 0 0 % 256 ∧
      ∀ i, i < bs.getD 0 0 % 256 →
        (readBlock B cfg cmd d0 s).bytes.getD i 0 =
          bs.getD (i + 1) 0 % 256) := by
  simp only [readBlock]
  rw [if_neg (by simp [h1]), if_neg (by simp [h2]), hb, fill_full bs hlen,
    getD_map_mod]
  constructor
  · intro hgt
    rw [if_pos hgt]
    exact ⟨rfl, rfl⟩
  · intro hle
    rw [if_neg (by omega)]
    refine ⟨rfl, ?_, ?_⟩
    · simp only [List.length_take, List.length_drop, List.length_map, hlen]
      omega
    · intro i hi
      show (((bs.map (· % 256)).drop 1).take (bs.getD 0 0 % 256)).getD i 0 =
        bs.getD (i + 1) 0 % 256
      rw [getD_take_drop _ _ _ hi, getD_map_mod, Nat.add_comm]

/-- C8 witness: a frame whose length prefix is 33 (with a full 33-byte
buffer) makes `readBlock` fail and leaves the out-parameter (initially the
empty vector) unchanged. -/
theorem readBlock_length_check_witness :
    (readBlock (okBus (33 :: List.replicate 32 0)) defaultConfig 0x20
        [] ()).status = .error
    ∧ (readBlock (okBus (33 :: List.replicate 32 0)) defaultConfig 0x20
        [] ()).bytes = [] := by
  exact (readBlock_length_check (okBus (33 :: List.replicate 32 0))
    defaultConfig 0x20 [] (33 :: List.replicate 32 0) () (by decide)
    (by decide) (by decide) (by decide)).1 (by decide)

/-- C2: ManufacturerBlockAccess echo verification.  Once the block write
has gone out and the block read has come back with byte list `bs`: a
response of at least 4 bytes whose first two bytes echo the sent command
little-endian yields HAL_OK with bytes 2-3 combined little-endian; an echo
mismatch, or a response shorter than 4 bytes, yields HAL_ERROR (the
driver's protocol-error status) with the out-parameter unchanged. -/
theorem mba_echo {σ : Type} (B : Bus σ) (cfg : Config) (c d0 : Nat)
    (s : σ) (bs : List Nat) (hc : c < 65536)
    (hw : (manufacturerBlockWrite B cfg c s).status = .ok)
    (hr : (readBlock B cfg 0x44 []
        (manufacturerBlockWrite B cfg c s).state).status = .ok)
    (hb : (readBlock B cfg 0x44 []
        (manufacturerBlockWrite B cfg c s).state).bytes = bs) :
    (4 ≤ bs.length →
      bs.getD 0 0 % 256 + bs.getD 1 0 % 256 * 256 = c →
      (manufacturerBlockAccessRead B cfg c d0 s).status = .ok ∧
      (manufacturerBlockAccessRead B cfg c d0 s).value =
        bs.getD 2 0 % 256 + bs.getD 3 0 % 256 * 256)
    ∧ (4 ≤ bs.length →
      bs.getD 0 0 % 256 + bs.getD 1 0 % 256 * 256 ≠ c →
      (manufacturerBlockAccessRead B cfg c d0 s).status = .error ∧
      (manufacturerBlockAccessRead B cfg c d0 s).value = d0)
    ∧ (bs.length < 4 →
      (manufacturerBlockAccessRead B cfg c d0 s).status = .error ∧
      (manufacturerBlockAccessRead B cfg c d0 s).value = d0) := by
  have hcc : c % 65536 = c := Nat.mod_eq_of_lt hc
  simp only [manufacturerBlockAccessRead, hcc]
  rw [if_neg (by simp [hw])]
  refine ⟨?_, ?_, ?_⟩
  · intro h4 hecho
    have hR : manufacturerBlockRead B cfg []
        (manufacturerBlockWrite B cfg c s).state =
        ⟨.ok, bs,
          (readBlock B cfg 0x44 []
            (manufacturerBlockWrite B cfg c s).state).state,
          (readBlock B cfg 0x44 []
            (manufacturerBlockWrite B cfg c s).state).trace⟩ := by
      simp only [manufacturerBlockRead]
      rw [if_pos ⟨hr, by rw [hb]; exact h4⟩, hb]
    rw [hR]
    rw [if_pos ⟨rfl, h4⟩, if_pos hecho]
    exact ⟨rfl, rfl⟩
  · intro h4 hecho
    have hR : manufacturerBlockRead B cfg []
        (manufacturerBlockWrite B cfg c s).state =
        ⟨.ok, bs,
          (readBlock B cfg 0x44 []
            (manufacturerBlockWrite B cfg c s).state).state,
          (readBlock B cfg 0x44 []
            (manufacturerBlockWrite B cfg c s).state).trace⟩ := by
      simp only [manufacturerBlockRead]
      rw [if_pos ⟨hr, by rw [hb]; exact h4⟩, hb]
    rw [hR]
    rw [if_pos ⟨rfl, h4⟩, if_neg hecho]
    exact ⟨rfl, rfl⟩
  · intro h4
    have hR : manufacturerBlockRead B cfg []
        (manufacturerBlockWrite B cfg c s).state =
        ⟨.error, bs,
          (readBlock B cfg 0x44 []
            (manufacturerBlockWrite B cfg c s).state).state,
          (readBlock B cfg 0x44 []
            (manufacturerBlockWrite B cfg c s).state).trace⟩ := by
      simp only [manufacturerBlockRead]
      rw [if_neg (by rw [hb]; omega), if_pos hr, hb]
    rw [hR]
    rw [if_neg (by simp)]
    exact ⟨rfl, rfl⟩

/-- C2 witness: the spec's voltage example — command 0x09 answered by the
correctly echoed frame `[0x04, 0x09, 0x00, 0x10, 0x27]` yields 10000 mV. -/
theorem mba_echo_witness :
    (manufacturerBlockAccessRead (okBus [4, 9, 0, 0x10, 0x27])
        defaultConfig 9 0 ()).status = .ok
    ∧ (manufacturerBlockAccessRead (okBus [4, 9, 0, 0x10, 0x27])
        defaultConfig 9 0 ()).value = 10000 := by
  have h := (mba_echo (okBus [4, 9, 0, 0x10, 0x27]) defaultConfig 9 0 ()
    [9, 0, 0x10, 0x27] (by decide) (by decide) (by decide)
    (by decide)).1 (by decide) (by decide)
  refine ⟨h.1, ?_⟩
  rw [h.2]
  decide

/-- C5: asymmetric per-field policy of the composite snapshot read.  If
every field but CycleCount succeeds and CycleCount fails, the snapshot is
returned with HAL_OK and `cycleCount = 0` (all other fields carrying their
read values); a failure of Voltage, Current, Temperature, StateOfCharge,
RemainingCapacity, FullChargeCapacity or BatteryStatus (each reached when
the fields before it succeeded) aborts the composite read with that field's
status. -/
theorem snapshot_policy {σ : Type} (B : Bus σ) (cfg : Config)
    (b0 : BatteryData) (s : σ) :
    ((bd1 B cfg b0 s).status = .ok → (bd2 B cfg b0 s).status = .ok →
     (bd3 B cfg b0 s).status = .ok → (bd4 B cfg b0 s).status = .ok →
     (bd5 B cfg b0 s).status = .ok → (bd6 B cfg b0 s).status = .ok →
     (bd7 B cfg b0 s).status ≠ .ok → (bd8 B cfg b0 s).status = .ok →
      (readBatteryData B cfg .AllBatteryData b0 s).status = .ok ∧
      (readBatteryData B cfg .AllBatteryData b0 s).value =
        ⟨(bd1 B cfg b0 s).value, (bd2 B cfg b0 s).value,
          (bd3 B cfg b0 s).value, (bd4 B cfg b0 s).value,
          (bd5 B cfg b0 s).value, (bd6 B cfg b0 s).value, 0,
          (bd8 B cfg b0 s).value⟩)
    ∧ ((bd1 B cfg b0 s).status ≠ .ok →
      (readBatteryData B cfg .AllBatteryData b0 s).status =
        (bd1 B cfg b0 s).status)
    ∧ ((bd1 B cfg b0 s).status = .ok → (bd2 B cfg b0 s).status ≠ .ok →
      (readBatteryData B cfg .AllBatteryData b0 s).status =
        (bd2 B cfg b0 s).status)
    ∧ ((bd1 B cfg b0 s).status = .ok → (bd2 B cfg b0 s).status = .ok →
       (bd3 B cfg b0 s).status ≠ .ok →
      (readBatteryData B cfg .AllBatteryData b0 s).status =
        (bd3 B cfg b0 s).status)
    ∧ ((bd1 B cfg b0 s).status = .ok → (bd2 B cfg b0 s).status = .ok →
       (bd3 B cfg b0 s).status = .ok → (bd4 B cfg b0 s).status ≠ .ok →
      (readBatteryData B cfg .AllBatteryData b0 s).status =
        (bd4 B cfg b0 s).status)
    ∧ ((bd1 B cfg b0 s).status = .ok → (bd2 B cfg b0 s).status = .ok →
       (bd3 B cfg b0 s).status = .ok → (bd4 B cfg b0 s).status = .ok →
       (bd5 B cfg b0 s).status ≠ .ok →
      (readBatteryData B cfg .AllBatteryData b0 s).status =
        (bd5 B cfg b0 s).status)
    ∧ ((bd1 B cfg b0 s).status = .ok → (bd2 B cfg b0 s).status = .ok →
       (bd3 B cfg b0 s).status = .ok → (bd4 B cfg b0 s).status = .ok →
       (bd5 B cfg b0 s).status = .ok → (bd6 B cfg b0 s).status ≠ .ok →
      (readBatteryData B cfg .AllBatteryData b0 s).status =
        (bd6 B cfg b0 s).status)
    ∧ ((bd1 B cfg b0 s).status = .ok → (bd2 B cfg b0 s).status = .ok →
       (bd3 B cfg b0 s).status = .ok → (bd4 B cfg b0 s).status = .ok →
       (bd5 B cfg b0 s).status = .ok → (bd6 B cfg b0 s).status = .ok →
       (bd8 B cfg b0 s).status ≠ .ok →
      (readBatteryData B cfg .AllBatteryData b0 s).status =
        (bd8 B cfg b0 s).status) := by
  simp only [bd1, bd2, bd3, bd4, bd5, bd6, bd7, bd8]
  refine ⟨?_, ?_, ?_, ?_, ?_, ?_, ?_, ?_⟩
  · intro h1 h2 h3 h4 h5 h6 h7 h8
    simp only [readBatteryData]
    rw [if_neg (by simp), if_neg (by simp [h1]), if_neg (by simp [h2]),
      if_neg (by simp [h3]), if_neg (by simp [h4]), if_neg (by simp [h5]),
      if_neg (by simp [h6]), if_pos h7, if_neg (by simp [h8])]
    exact ⟨rfl, rfl⟩
  · intro h1
    simp only [readBatteryData]
    rw [if_neg (by simp), if_pos h1]
  · intro h1 h2
    simp only [readBatteryData]
    rw [if_neg (by simp), if_neg (by simp [h1]), if_pos h2]
  · intro h1 h2 h3
    simp only [readBatteryData]
    rw [if_neg (by simp), if_neg (by simp [h1]), if_neg (by simp [h2]),
      if_pos h3]
  · intro h1 h2 h3 h4
    simp only [readBatteryData]
    rw [if_neg (by simp), if_neg (by simp [h1]), if_neg (by simp [h2]),
      if_neg (by simp [h3]), if_pos h4]
  · intro h1 h2 h3 h4 h5
    simp only [readBatteryData]
    rw [if_neg (by simp), if_neg (by simp [h1]), if_neg (by simp [h2]),
      if_neg (by simp [h3]), if_neg (by simp [h4]), if_pos h5]
  · intro h1 h2 h3 h4 h5 h6
    simp only [readBatteryData]
    rw [if_neg (by simp), if_neg (by simp [h1]), if_neg (by simp [h2]),
      if_neg (by simp [h3]), if_neg (by simp [h4]), if_neg (by simp [h5]),
      if_pos h6]
  · intro h1 h2 h3 h4 h5 h6 h8
    simp only [readBatteryData]
    rw [if_neg (by simp), if_neg (by simp [h1]), if_neg (by simp [h2]),
      if_neg (by simp [h3]), if_neg (by simp [h4]), if_neg (by simp [h5]),
      if_neg (by simp [h6]), if_pos h8]

/-- C5 witness: on the bus where only CycleCount (and the fallback path)
fails, the composite read succeeds with `cycleCount = 0`. -/
theorem snapshot_policy_witness :
    (readBatteryData cycleFailBus defaultConfig .AllBatteryData zeroData
        ()).status = .ok
    ∧ (readBatteryData cycleFailBus defaultConfig .AllBatteryData zeroData
        ()).value.cycleCount = 0 := by
  have h := (snapshot_policy cycleFailBus defaultConfig zeroData ()).1
    (by decide) (by decide) (by decide) (by decide) (by decide) (by decide)
    (by decide) (by decide)
  exact ⟨h.1, by rw [h.2]⟩

end BQ40Z80
